import Mathlib

/-!
Verification of the Worten scraping core (`src/products/services/scraper.py`)
against its natural-language specification.

The Python source is shallowly embedded: pure string/JSON manipulation is
translated directly; the Selenium/WebDriver boundary (network fetches, DOM
element lookups, page rendering) is abstracted into explicit outcome data
passed to the embedded functions, mirroring exactly the branches the Python
code takes on each possible outcome.  Python `Decimal` values are modelled
as rationals (`ℚ`); every rational is built with `Rat.divInt` so that the
definitions evaluate inside the kernel.
-/

namespace Worten

/-! ## Generic helpers (Python string/`in` primitives on character lists) -/

/-- Digits-to-natural accumulator, used to give a value to a run of ASCII
digit characters (matches Python `int`/`Decimal` digit interpretation). -/
def natOfDigits (cs : List Char) : Nat :=
  cs.foldl (fun a c => a * 10 + (c.toNat - 48)) 0

/-- Is `sub` a contiguous infix of `l`?  Models Python's `in` operator on
strings. -/
def occursIn (sub : List Char) : List Char → Bool
  | [] => sub.isEmpty
  | c :: rest => List.isPrefixOf sub (c :: rest) || occursIn sub rest

/-- Python `sub in s` substring test. -/
def containsSub (s sub : String) : Bool :=
  occursIn sub.toList s.toList

/-- Python `str.lower()` (ASCII case folding suffices for the inputs the
scraper compares: stop words and the two "no results" markers). -/
def pyLower (s : String) : String :=
  String.mk (s.toList.map Char.toLower)

/-- Python `str.strip()`: remove leading and trailing whitespace. -/
def pyStrip (s : String) : String :=
  String.mk (((s.toList.dropWhile Char.isWhitespace).reverse.dropWhile
    Char.isWhitespace).reverse)

/-- Python `s[:100]` truncation used on exception messages. -/
def pyTake (s : String) (n : Nat) : String :=
  String.mk (s.toList.take n)

/-- Python `str.startswith`. -/
def pyStartsWith (s pre : String) : Bool :=
  List.isPrefixOf pre.toList s.toList

/-- Python truthiness of an `Optional[str]`: `None` and `""` are falsy. -/
def optTruthy : Option String → Bool
  | none => false
  | some s => s != ""

/-- Python `str.replace(pat, rep)` on character lists (all occurrences,
left to right, no overlap), driven by fuel `≥ length l` so the recursion is
structural; `replaceAll` below supplies that fuel. -/
def replaceAllAux (pat rep : List Char) : Nat → List Char → List Char
  | _, [] => []
  | 0, l => l
  | fuel + 1, c :: rest =>
    if !pat.isEmpty && List.isPrefixOf pat (c :: rest) then
      rep ++ replaceAllAux pat rep fuel ((c :: rest).drop pat.length)
    else c :: replaceAllAux pat rep fuel rest

/-- Python `s.replace(pat, rep)`. -/
def replaceAll (s pat rep : String) : String :=
  String.mk (replaceAllAux pat.toList rep.toList s.length s.toList)

/-- Python `str.split()` with no argument: split on whitespace runs,
discarding empty pieces.  `cur` holds the reversed current word. -/
def splitWsAux (cur : List Char) : List Char → List String
  | [] => if cur.isEmpty then [] else [String.mk cur.reverse]
  | c :: rest =>
    if c.isWhitespace then
      if cur.isEmpty then splitWsAux [] rest
      else String.mk cur.reverse :: splitWsAux [] rest
    else splitWsAux (c :: cur) rest

/-! ## PriceParser: `WortenScraper._parse_price` (scraper.py lines 753-772) -/

/-- Step 1 of `_parse_price`: Python `re.sub(r"[€EUR\s]", "", text)`.
Removes the euro sign, the uppercase letters E, U, R and whitespace
(the regex is case sensitive, so lowercase letters are kept).  Python's
`\s` also covers a few rarer control characters; the embedding uses the
ASCII whitespace set, which agrees on every input exercised here. -/
def stripPriceChars (s : String) : String :=
  String.mk (s.toList.filter fun c =>
    !(c == '€' || c == 'E' || c == 'U' || c == 'R' || c.isWhitespace))

/-- Step 2 of `_parse_price`: locale normalisation.  If both `,` and `.`
occur, every `.` is removed (thousands separator) and `,` becomes the
decimal point; if only `,` occurs it becomes the decimal point. -/
def normalizeSeparators (s : String) : String :=
  if s.toList.contains ',' && s.toList.contains '.' then
    String.mk ((s.toList.filter fun c => c != '.').map fun c =>
      if c == ',' then '.' else c)
  else if s.toList.contains ',' then
    String.mk (s.toList.map fun c => if c == ',' then '.' else c)
  else s

/-- Step 3 of `_parse_price`: the first match of the Python regex
`(\d+\.?\d*)` — a maximal digit run starting at the earliest digit,
optionally followed by one dot and a further digit run. -/
def firstNumericSubstring : List Char → Option (List Char)
  | [] => none
  | c :: rest =>
    if c.isDigit then
      let intPart := (c :: rest).takeWhile Char.isDigit
      let afterInt := (c :: rest).dropWhile Char.isDigit
      match afterInt with
      | '.' :: tl => some (intPart ++ '.' :: tl.takeWhile Char.isDigit)
      | _ => some intPart
    else firstNumericSubstring rest

/-- Value of a matched numeric substring `digits[.digits]` as a rational
(Python `Decimal(match.group(1))`, which cannot fail on this shape). -/
def decOfNumericMatch (cs : List Char) : ℚ :=
  let intPart := cs.takeWhile Char.isDigit
  let frac := match cs.dropWhile Char.isDigit with
    | '.' :: tl => tl
    | _ => []
  Rat.divInt (natOfDigits intPart * 10 ^ frac.length + natOfDigits frac)
    (10 ^ frac.length)

/-- Embedding of `WortenScraper._parse_price` (scraper.py 753-772): strip currency
characters, normalise separators, extract the first numeric substring and
accept it only when strictly positive. -/
def parse_price (text : String) : Option ℚ :=
  if text = "" then none
  else
    match firstNumericSubstring (normalizeSeparators (stripPriceChars text)).toList with
    | none => none
    | some numTxt =>
      if 0 < decOfNumericMatch numTxt then some (decOfNumericMatch numTxt) else none

/-! ## JSON model

The payload embedded by the site (parsed in Python with `json.loads`) is
modelled as a tree value.  Objects are association lists; lookups take the
first binding of a key, as Python dicts have unique keys. -/

inductive JValue where
  | null
  | bool (b : Bool)
  | num (q : ℚ)
  | str (s : String)
  | arr (xs : List JValue)
  | obj (fields : List (String × JValue))

/-- Lookup in an object's field list (Python `dict` access). -/
def objGet (fields : List (String × JValue)) (key : String) : Option JValue :=
  (fields.find? fun kv => kv.1 == key).map fun kv => kv.2

/-- Python `d.get(key)` on a JSON value known to be a dict; `none` when the
key is absent.  Only ever applied to `.obj` values by the embedding. -/
def jget (v : JValue) (key : String) : Option JValue :=
  match v with
  | .obj fields => objGet fields key
  | _ => none

/-- Python `d.get(key, default)` on a dict. -/
def jgetD (v : JValue) (key : String) (d : JValue) : JValue :=
  (jget v key).getD d

/-- Python truthiness of a JSON value. -/
def truthy : JValue → Bool
  | .null => false
  | .bool b => b
  | .num q => q != 0
  | .str s => s != ""
  | .arr xs => !xs.isEmpty
  | .obj fs => !fs.isEmpty

/-- Python `str(v)` as applied by `Decimal(str(...))` in
`_get_price_from_json`.  String leaves are returned verbatim; booleans and
null use Python's capitalised forms; integers print as Python ints.
Non-integer numbers and containers are rendered to forms that are not
valid decimal literals, matching the fact that `Decimal(str(...))` fails
on them ( `str(list)`/`str(float)` round-tripping is not needed by any
claim, every exercised leaf is a string or an integer). -/
def pyStr : JValue → String
  | .str s => s
  | .bool true => "True"
  | .bool false => "False"
  | .null => "None"
  | .num q => if q.den = 1 then toString q.num else toString q.num ++ "?/" ++ toString q.den
  | .arr _ => "[...]"
  | .obj _ => "(dict)"

/-- Model of Python `Decimal(string)` for the shapes reaching
`_get_price_from_json`: optional surrounding whitespace, optional sign,
digits with at most one decimal point and at least one digit.  Exponent
notation and the special forms (`NaN`, `Infinity`) are not modelled; no
claim exercises them.  `none` models the raised `InvalidOperation` that
the source catches. -/
def decOfStr (s : String) : Option ℚ :=
  let t := (pyStrip s).toList
  let signRest : Bool × List Char :=
    match t with
    | '-' :: r => (true, r)
    | '+' :: r => (false, r)
    | r => (false, r)
  let intD := signRest.2.takeWhile Char.isDigit
  let rest := signRest.2.dropWhile Char.isDigit
  let build : Nat → Nat → Nat → Option ℚ := fun i f l =>
    let n : Int := (i * 10 ^ l + f : Nat)
    some (Rat.divInt (if signRest.1 then -n else n) (10 ^ l))
  match rest with
  | [] => if intD.isEmpty then none else build (natOfDigits intD) 0 0
  | '.' :: fr =>
    let frD := fr.takeWhile Char.isDigit
    if !(fr.dropWhile Char.isDigit).isEmpty then none
    else if intD.isEmpty && frD.isEmpty then none
    else build (natOfDigits intD) (natOfDigits frD) frD.length
  | _ => none

/-! ## ResultRecord: the `ScrapedProduct` dataclass (scraper.py 91-100) -/

/-- Embedding of `ScrapedProduct` with the dataclass's field defaults. -/
structure ScrapedProduct where
  name : Option String := none
  url : Option String := none
  price : Option ℚ := none
  seller : Option String := none
  is_available : Bool := false
  error : Option String := none
deriving DecidableEq

/-- Embedding of `WortenScraper.BASE_URL`. -/
def BASE_URL : String := "https://www.worten.pt"

/-- Python truthiness of the `Optional[Decimal]` price (`bool(price)`):
`None` and `Decimal("0")` are falsy. -/
def priceTruthy : Option ℚ → Bool
  | none => false
  | some q => q != 0

/-! ## `_get_price_from_json` (scraper.py 506-527) -/

/-- The nested `(field, subfield)` pairs tried first. -/
def priceFieldPairs : List (String × String) :=
  [("price", "value"), ("price", "current"), ("prices", "current")]

/-- The flat fields tried second. -/
def priceFlatFields : List String :=
  ["currentPrice", "salePrice", "price"]

/-- One nested attempt: `data = product.get(field, {})`; if `data` is a
dict containing `subfield`, try `Decimal(str(data[subfield]))`, falling
through (`except: pass`) when the conversion fails. -/
def priceNestedAttempt (product : JValue) (fieldPair : String × String) : Option ℚ :=
  match jget product fieldPair.1 with
  | some (.obj d) =>
    match objGet d fieldPair.2 with
    | some v => decOfStr (pyStr v)
    | none => none
  | _ => none

/-- One flat attempt: `value = product.get(field)`; if truthy and not a
dict, try `Decimal(str(value))`, falling through on failure. -/
def priceFlatAttempt (product : JValue) (field : String) : Option ℚ :=
  match jget product field with
  | some (.obj _) => none
  | some v => if truthy v then decOfStr (pyStr v) else none
  | none => none

/-- First `some` of a list of attempts (the Python loops' early `return`). -/
def firstSome : List (Option ℚ) → Option ℚ
  | [] => none
  | some q :: _ => some q
  | none :: rest => firstSome rest

/-- Embedding of `WortenScraper._get_price_from_json`: nested pairs first, then flat
fields; `None` when every attempt fails.  No positivity check is made. -/
def get_price_from_json (product : JValue) : Option ℚ :=
  match firstSome (priceFieldPairs.map (priceNestedAttempt product)) with
  | some q => some q
  | none => firstSome (priceFlatFields.map (priceFlatAttempt product))

/-! ## `_get_seller_from_json` (scraper.py 529-534) -/

/-- Embedding of `WortenScraper._get_seller_from_json`: `product.get("seller", {})`;
when a dict, `seller.get("name", "Worten")`, else `"Worten"`.  A present
`name` key is returned verbatim when a string; a JSON `null` name is
Python `None` (hence `none` here); other non-string values are rendered
with `pyStr` to keep the record's `seller` field simply typed (the
dataclass annotates it `Optional[str]` and no claim exercises non-string
seller names). -/
def get_seller_from_json (product : JValue) : Option String :=
  match jget product "seller" with
  | some (.obj d) =>
    match objGet d "name" with
    | some (.str s) => some s
    | some .null => none
    | some v => some (pyStr v)
    | none => some "Worten"
  | some _ => some "Worten"
  | none => some "Worten"

/-! ## `_parse_product_json` (scraper.py 480-504) -/

/-- The record returned by `_parse_product_json`'s `except` branch. -/
def jsonParseErrorRecord : ScrapedProduct :=
  { error := some "Erro ao parsear produto do JSON" }

/-- Python `a or b` over optional JSON lookups: the first truthy value,
else the second lookup's result (which may itself be falsy or absent). -/
def pyOrJ (a b : Option JValue) : Option JValue :=
  match a with
  | some v => if truthy v then some v else b
  | none => b

/-- Name as stored by `_parse_product_json`: the first truthy of
`name`/`title` lookups; string leaves verbatim, other truthy leaves
rendered (the dataclass annotates `Optional[str]`); a falsy result is the
falsy value itself (`""` stays `""`, `None`/absent stays `None`). -/
def jsonNameField (v : Option JValue) : Option String :=
  match v with
  | some (.str s) => some s
  | some .null => none
  | some w => some (pyStr w)
  | none => none

/-- URL from the truthy `slug`/`url` value: Python calls
`slug.startswith("http")`, which raises on a non-string truthy value —
modelled with `Except`, the raise lands in the enclosing `except`. -/
def urlFromSlug (slugV : Option JValue) : Except Unit (Option String) :=
  match slugV with
  | some v =>
    if truthy v then
      match v with
      | .str s => .ok (some (if pyStartsWith s "http" then s else BASE_URL ++ s))
      | _ => .error ()
    else .ok none
  | none => .ok none

/-- Embedding of `WortenScraper._parse_product_json`: field mapping from a JSON item to
a `ScrapedProduct`.  Any raise inside the `try` (a non-dict item, or a
non-string truthy slug) yields the error record. -/
def parse_product_json (product : JValue) : ScrapedProduct :=
  match product with
  | .obj _ =>
    let name := jsonNameField (pyOrJ (jget product "name") (jget product "title"))
    match urlFromSlug (pyOrJ (jget product "slug") (jget product "url")) with
    | .error _ => jsonParseErrorRecord
    | .ok url =>
      let price := get_price_from_json product
      let seller := get_seller_from_json product
      let is_available := priceTruthy price &&
        (truthy (jgetD product "available" (.bool true)) ||
         truthy (jgetD product "inStock" (.bool true)))
      { name := name, url := url, price := price, seller := seller,
        is_available := is_available, error := none }
  | _ => jsonParseErrorRecord

/-! ## `_extract_from_page_data` (scraper.py 444-478)

The function locates the `__NEXT_DATA__` script tag and `json.loads` its
body; that textual boundary is abstracted: the embedding receives the
parsed payload as `Option JValue` (`none` = marker absent or JSON
malformed, both of which return `None` in the source).  The subsequent
dict traversal is embedded exactly; `Except Unit` models the raises that
the source's `except` turns into `None`. -/

/-- Embedding of `v.get(key, default)` where `v` must be a dict or the attribute access
raises (modelled as `.error`). -/
def dictGetD (v : JValue) (key : String) (d : JValue) : Except Unit JValue :=
  match v with
  | .obj fields => .ok ((objGet fields key).getD d)
  | _ => .error ()

/-- Embedding of `search_data.get("products", []) or search_data.get("items", []) or
search_data.get("results", [])` with Python `or` short-circuiting. -/
def productsOf (sd : JValue) : Except Unit JValue :=
  match dictGetD sd "products" (.arr []) with
  | .error e => .error e
  | .ok p1 =>
    if truthy p1 then .ok p1
    else
      match dictGetD sd "items" (.arr []) with
      | .error e => .error e
      | .ok p2 => if truthy p2 then .ok p2 else dictGetD sd "results" (.arr [])

/-- Python `products[0]` on an arbitrary truthy value: list indexing takes
the head; string indexing takes the first character; any other value is
not subscriptable (or a dict missing the key `0`) and raises. -/
def pyIndex0 : JValue → Option JValue
  | .arr (x :: _) => some x
  | .str s =>
    match s.toList with
    | c :: _ => some (.str (String.mk [c]))
    | [] => none
  | _ => none

/-- The `for key in ["searchData", "initialData", "data"]` loop: the first
key whose value is truthy and yields a truthy product collection wins and
the first item is parsed; a falsy value or empty collection moves on. -/
def searchKeysLoop (props : JValue) : List String → Except Unit (Option ScrapedProduct)
  | [] => .ok none
  | k :: rest =>
    match dictGetD props k (.obj []) with
    | .error e => .error e
    | .ok sd =>
      if truthy sd then
        match productsOf sd with
        | .error e => .error e
        | .ok ps =>
          if truthy ps then
            match pyIndex0 ps with
            | some item => .ok (some (parse_product_json item))
            | none => .error ()
          else searchKeysLoop props rest
      else searchKeysLoop props rest

/-- Body of `_extract_from_page_data` after `json.loads`, with raises
explicit. -/
def pageDataCore (data : JValue) : Except Unit (Option ScrapedProduct) :=
  match dictGetD data "props" (.obj []) with
  | .error e => .error e
  | .ok p1 =>
    match dictGetD p1 "pageProps" (.obj []) with
    | .error e => .error e
    | .ok props =>
      match searchKeysLoop props ["searchData", "initialData", "data"] with
      | .error e => .error e
      | .ok (some r) => .ok (some r)
      | .ok none =>
        match dictGetD props "product" (.obj []) with
        | .error e => .error e
        | .ok a =>
          if truthy a then .ok (some (parse_product_json a))
          else
            match dictGetD props "productData" (.obj []) with
            | .error e => .error e
            | .ok b => if truthy b then .ok (some (parse_product_json b)) else .ok none

/-- Embedding of `WortenScraper._extract_from_page_data`: `None` when no payload was
found, when traversal raised, or when no product collection was present;
otherwise the parsed first item / single-product record. -/
def extract_from_page_data (payload : Option JValue) : Option ScrapedProduct :=
  match payload with
  | none => none
  | some data =>
    match pageDataCore data with
    | .ok r => r
    | .error _ => none

/-! ## DOM extraction (scraper.py 536-751)

Selenium element lookups are abstracted into their outcomes: for each
selector list the embedding receives the per-selector find result
(`none` = `find_element` raised `NoSuchElementException`, `some t` = the
element's text).  The branch structure on those outcomes is embedded
exactly. -/

/-- The outcome of the product-card discovery plus the per-field lookups
inside `_extract_from_search_dom`. -/
structure CardView where
  /-- `href` of an anchor matched by `a[href*="/produtos/"]`, if found. -/
  hrefProdutos : Option String := none
  /-- `href` of the first anchor in the card, if an anchor with an `href`
  exists (the fallback lookup). -/
  anchorHref : Option String := none
  /-- Per-selector find results for the four name selectors. -/
  nameTexts : List (Option String) := []
  /-- Per-selector find results for the three price selectors. -/
  priceTexts : List (Option String) := []
  /-- Text of the seller element, if found. -/
  sellerText : Option String := none

/-- Rendered-page view consumed by `_search_with_selenium` after the fetch
succeeded: the driver's final URL and page source, the parsed
`__NEXT_DATA__` payload of that source (textual extraction abstracted as
in `extract_from_page_data`), and the DOM lookup outcomes. -/
structure DomView where
  /-- `h1` text on a product page, if the element was found. -/
  h1Text : Option String := none
  /-- Per-selector find results for the two `_extract_price_dom` selectors. -/
  priceDomTexts : List (Option String) := []
  /-- Text of the `[class*="seller"]` element, if found. -/
  sellerDomText : Option String := none
  /-- The first product card matched by the card selector list, if any. -/
  card : Option CardView := none
  /-- Message of an unexpected exception inside `_extract_from_search_dom`'s
  outer `try` (caught there and rendered into an error record). -/
  domRaised : Option String := none

/-- Embedding of `_extract_price_dom` (scraper.py 681-691): first selector whose element
is found wins and its text goes to `_parse_price` — even when that parse
yields `None`. -/
def extract_price_dom : List (Option String) → Option ℚ
  | [] => none
  | some t :: _ => parse_price t
  | none :: rest => extract_price_dom rest

/-- Embedding of `_extract_seller_dom` (scraper.py 719-727): stripped element text, or
`"Worten"` when the element is missing or its text is empty. -/
def extract_seller_dom (t : Option String) : String :=
  match t with
  | none => "Worten"
  | some s => if pyStrip s = "" then "Worten" else pyStrip s

/-- Python `text.replace('\n', '').replace(' ', '')` applied to card price
text. -/
def stripNewlinesSpaces (s : String) : String :=
  String.mk (s.toList.filter fun c => !(c == '\n' || c == ' '))

/-- Embedding of `_extract_price_card` (scraper.py 693-707): first selector whose
element is found wins; its cleaned text goes to `_parse_price` — even when
that parse yields `None`. -/
def extract_price_card : List (Option String) → Option ℚ
  | [] => none
  | some t :: _ => parse_price (stripNewlinesSpaces t)
  | none :: rest => extract_price_card rest

/-- Embedding of `_extract_seller_card` (scraper.py 729-744): stripped text with the
`"Vendido por "` prefix removed (Python `str.replace`, all occurrences),
defaulting to `"Worten"` when missing or empty. -/
def extract_seller_card (t : Option String) : String :=
  match t with
  | none => "Worten"
  | some s =>
    let st := pyStrip s
    let st := if pyStartsWith st "Vendido por " then replaceAll st "Vendido por " "" else st
    if st = "" then "Worten" else st

/-- The name loop of `_extract_from_search_dom` (scraper.py 610-618): the
`name` variable keeps the last found (possibly empty) stripped text and the
loop stops at the first non-empty one. -/
def nameFromSelectors (acc : Option String) : List (Option String) → Option String
  | [] => acc
  | none :: rest => nameFromSelectors acc rest
  | some t :: rest =>
    if pyStrip t = "" then nameFromSelectors (some (pyStrip t)) rest
    else some (pyStrip t)

/-- The URL lookup of `_extract_from_search_dom` (scraper.py 595-607):
an anchor matching `a[href*="/produtos/"]` wins outright; else the first
anchor's `href` is taken only when truthy and containing `/produtos/`. -/
def cardUrl (c : CardView) : Option String :=
  match c.hrefProdutos with
  | some h => some h
  | none =>
    match c.anchorHref with
    | some h => if h != "" && containsSub h "/produtos/" then some h else none
    | none => none

/-- Embedding of `_extract_from_search_dom` (scraper.py 561-632).  The ImportError
probe at the top (environment-dependent, returns an error record with the
same shape) is not modelled.  An unexpected raise inside the outer `try`
is the `domRaised` outcome. -/
def extract_from_search_dom (dom : DomView) : ScrapedProduct :=
  match dom.domRaised with
  | some e => { error := some ("Erro na extração DOM: " ++ pyTake e 100) }
  | none =>
    match dom.card with
    | none => { is_available := false, error := some "Nenhum produto encontrado no DOM" }
    | some c =>
      { name := nameFromSelectors none c.nameTexts
        url := cardUrl c
        price := extract_price_card c.priceTexts
        seller := some (extract_seller_card c.sellerText)
        is_available := (extract_price_card c.priceTexts).isSome
        error := none }

/-- The DOM fallback of `_extract_product_page` (scraper.py 543-559):
h1 text for the name, the generic price/seller selectors, availability =
price found, the navigated-to URL. -/
def productPageFallback (dom : DomView) (url : String) : ScrapedProduct :=
  { name := dom.h1Text.map pyStrip
    url := some url
    price := extract_price_dom dom.priceDomTexts
    seller := some (extract_seller_dom dom.sellerDomText)
    is_available := (extract_price_dom dom.priceDomTexts).isSome
    error := none }

/-- Embedding of `_extract_product_page` (scraper.py 536-559): page-data extraction
first; when it yields a record with a truthy name, that record with its
`url` overwritten; otherwise the DOM fallback. -/
def extract_product_page (pageData : Option JValue) (dom : DomView) (url : String) :
    ScrapedProduct :=
  match extract_from_page_data pageData with
  | some r =>
    if optTruthy r.name then { r with url := some url }
    else productPageFallback dom url
  | none => productPageFallback dom url

/-! ## `_search_with_selenium` (scraper.py 313-375)

One search attempt for one term.  The WebDriver session is abstracted into
the outcome the `try` body reaches: a raised exception (the two `except`
arms), an unavailable driver, a Cloudflare timeout, or a loaded page with
its final URL, source, parsed payload and DOM view. -/

inductive FetchOutcome where
  /-- `WebDriverException` raised anywhere in the `try` body (this arm also
  sets `_driver_failed`, which only affects later attempts through the
  driver the oracle abstracts). -/
  | raisedWebDriver (msg : String)
  /-- Any other exception raised in the `try` body. -/
  | raisedOther (msg : String)
  /-- `_get_driver()` returned `None`. -/
  | noDriver
  /-- `_wait_for_page_load` returned `False`. -/
  | cloudflareTimeout
  /-- The page loaded: final URL, page source, the parsed `__NEXT_DATA__`
  payload of that source, and the DOM lookup outcomes. -/
  | page (finalUrl : String) (pageSource : String) (pageData : Option JValue) (dom : DomView)

/-- Embedding of `WortenScraper._search_with_selenium`: produce one `ScrapedProduct`
for one term from the session outcome; every exception becomes an error
record. -/
def search_with_selenium (o : FetchOutcome) : ScrapedProduct :=
  match o with
  | .raisedWebDriver m => { error := some ("Erro WebDriver: " ++ pyTake m 100) }
  | .raisedOther m => { error := some ("Erro Selenium: " ++ pyTake m 100) }
  | .noDriver => { error := some "WebDriver não disponível" }
  | .cloudflareTimeout => { error := some "Timeout no Cloudflare" }
  | .page finalUrl pageSource pageData dom =>
    if containsSub finalUrl "/p/" then
      extract_product_page pageData dom finalUrl
    else if containsSub (pyLower pageSource) "sem resultados" ||
            containsSub (pyLower pageSource) "nenhum resultado" then
      { is_available := false, error := some "Nenhum resultado encontrado" }
    else
      match extract_from_page_data pageData with
      | some r =>
        if r.is_available || optTruthy r.url then r else extract_from_search_dom dom
      | none => extract_from_search_dom dom

/-! ## Term planning and the orchestrator loop
(`search_product`, scraper.py 255-311) -/

/-- The `skip_words` stop-word set. -/
def skip_words : List String :=
  ["de", "da", "do", "das", "dos", "e", "ou", "com", "para", "em", "um", "uma"]

/-- The significance filter applied to each token:
`w.lower() not in skip_words and len(w) > 2`. -/
def significantB (w : String) : Bool :=
  !(skip_words.contains (pyLower w)) && decide (2 < w.length)

/-- Python `str.split()` with no argument (see `splitWsAux`). -/
def pySplitWs (s : String) : List String :=
  splitWsAux [] s.toList

/-- Python `" ".join(l)`. -/
def joinSpace : List String → String
  | [] => ""
  | [w] => w
  | w :: rest => w ++ " " ++ joinSpace rest

/-- The term-planning prefix of `search_product` (scraper.py 266-293):
under `if query:`, the first up-to-4 significant tokens joined by spaces
(when any exist), then the full query when it has at most 5 tokens. -/
def search_terms_of (query : String) : List String :=
  if query = "" then []
  else
    (if ((pySplitWs query).filter significantB).isEmpty then []
     else [joinSpace (((pySplitWs query).filter significantB).take 4)]) ++
    (if (pySplitWs query).length ≤ 5 then [query] else [])

/-- The record returned when no search term could be formed
(scraper.py 295-298). -/
def noTermRecord : ScrapedProduct :=
  { is_available := false, error := some "Nenhum termo de busca informado" }

/-- The terminal not-found record (scraper.py 309-311). -/
def notFoundRecord : ScrapedProduct :=
  { is_available := false, error := some "Produto não encontrado na Worten" }

/-- The acceptability test of the orchestrator loop:
`result.is_available or result.url` (scraper.py 304). -/
def acceptableB (r : ScrapedProduct) : Bool :=
  r.is_available || optTruthy r.url

/-- The `for term in search_terms` loop (scraper.py 302-307): first
acceptable per-term result wins, exhaustion falls through to the terminal
not-found record. -/
def searchLoop (fetch : String → FetchOutcome) : List String → ScrapedProduct
  | [] => notFoundRecord
  | t :: rest =>
    let result := search_with_selenium (fetch t)
    if acceptableB result then result else searchLoop fetch rest

/-- Ghost instrumentation: the terms the loop actually fetches, in order. -/
def searchLoopTrace (fetch : String → FetchOutcome) : List String → List String
  | [] => []
  | t :: rest =>
    if acceptableB (search_with_selenium (fetch t)) then [t]
    else t :: searchLoopTrace fetch rest

/-- Embedding of `WortenScraper.search_product` (scraper.py 255-311).  `useSelenium` and
`driverFailed` are the instance state read at line 301; `fetch` abstracts
the per-term WebDriver session; `fetchRequests` is the
`_search_with_requests` capability the class also carries — the method
never invokes it, which the embedding mirrors by taking and ignoring it;
`ean` is the optional barcode argument, which the body never reads. -/
def search_product (useSelenium driverFailed : Bool)
    (fetch : String → FetchOutcome) (fetchRequests : String → ScrapedProduct)
    (query : String) (ean : Option String) : ScrapedProduct :=
  let terms := search_terms_of query
  if terms.isEmpty then noTermRecord
  else if useSelenium && !driverFailed then searchLoop fetch terms
  else notFoundRecord

/-- Ghost instrumentation for `search_product`: the terms for which a
selenium fetch is performed. -/
def attempted_terms (useSelenium driverFailed : Bool)
    (fetch : String → FetchOutcome) (query : String) : List String :=
  let terms := search_terms_of query
  if terms.isEmpty then []
  else if useSelenium && !driverFailed then searchLoopTrace fetch terms
  else []

/-! ## Record invariant: a set `error` forces `is_available = false` -/

/-- The invariant of claim C2 as a boolean: the record carries no error,
or it is flagged unavailable. -/
def errOkB (r : ScrapedProduct) : Bool :=
  r.error.isNone || !r.is_available

theorem errOk_parse_product_json (p : JValue) :
    errOkB (parse_product_json p) = true := by
  cases p <;> simp only [parse_product_json]
  case obj fields =>
    cases h : urlFromSlug (pyOrJ (jget (JValue.obj fields) "slug")
        (jget (JValue.obj fields) "url")) <;>
      simp [errOkB, jsonParseErrorRecord]
  all_goals simp [errOkB, jsonParseErrorRecord]

theorem errOk_searchKeysLoop (props : JValue) (ks : List String) (r : ScrapedProduct)
    (h : searchKeysLoop props ks = .ok (some r)) : errOkB r = true := by
  induction ks with
  | nil => simp [searchKeysLoop] at h
  | cons k rest ih =>
    unfold searchKeysLoop at h
    split at h
    · exact absurd h (by simp)
    · split at h
      · split at h
        · exact absurd h (by simp)
        · split at h
          · split at h
            · rw [show r = parse_product_json _ by injection h with h2; exact (Option.some.inj h2).symm]
              exact errOk_parse_product_json _
            · exact absurd h (by simp)
          · exact ih h
      · exact ih h

theorem errOk_pageDataCore (data : JValue) (r : ScrapedProduct)
    (h : pageDataCore data = .ok (some r)) : errOkB r = true := by
  unfold pageDataCore at h
  split at h
  · exact absurd h (by simp)
  · split at h
    · exact absurd h (by simp)
    · split at h
      · exact absurd h (by simp)
      · rename_i heq
        rw [show r = _ by injection h with h2; exact (Option.some.inj h2).symm]
        exact errOk_searchKeysLoop _ _ _ heq
      · split at h
        · exact absurd h (by simp)
        · split at h
          · rw [show r = parse_product_json _ by injection h with h2; exact (Option.some.inj h2).symm]
            exact errOk_parse_product_json _
          · split at h
            · exact absurd h (by simp)
            · split at h
              · rw [show r = parse_product_json _ by injection h with h2; exact (Option.some.inj h2).symm]
                exact errOk_parse_product_json _
              · exact absurd h (by simp)

theorem errOk_extract_from_page_data (payload : Option JValue) (r : ScrapedProduct)
    (h : extract_from_page_data payload = some r) : errOkB r = true := by
  unfold extract_from_page_data at h
  split at h
  · exact absurd h (by simp)
  · rename_i data
    split at h
    · rename_i res heq
      subst h
      exact errOk_pageDataCore data r heq
    · exact absurd h (by simp)

theorem errOk_extract_from_search_dom (dom : DomView) :
    errOkB (extract_from_search_dom dom) = true := by
  unfold extract_from_search_dom
  split
  · simp [errOkB]
  · split <;> simp [errOkB]

theorem errOk_productPageFallback (dom : DomView) (url : String) :
    errOkB (productPageFallback dom url) = true := by
  simp [errOkB, productPageFallback]

theorem errOk_extract_product_page (pageData : Option JValue) (dom : DomView)
    (url : String) : errOkB (extract_product_page pageData dom url) = true := by
  unfold extract_product_page
  split
  · rename_i r heq
    split
    · have := errOk_extract_from_page_data pageData r heq
      simpa [errOkB] using this
    · exact errOk_productPageFallback dom url
  · exact errOk_productPageFallback dom url

theorem errOk_search_with_selenium (o : FetchOutcome) :
    errOkB (search_with_selenium o) = true := by
  cases o <;> simp only [search_with_selenium]
  case raisedWebDriver m => simp [errOkB]
  case raisedOther m => simp [errOkB]
  case noDriver => simp [errOkB]
  case cloudflareTimeout => simp [errOkB]
  case page finalUrl pageSource pageData dom =>
    split
    · exact errOk_extract_product_page pageData dom finalUrl
    · split
      · simp [errOkB]
      · split
        · rename_i r heq
          split
          · exact errOk_extract_from_page_data pageData r heq
          · exact errOk_extract_from_search_dom dom
        · exact errOk_extract_from_search_dom dom

theorem errOk_searchLoop (fetch : String → FetchOutcome) (terms : List String) :
    errOkB (searchLoop fetch terms) = true := by
  induction terms with
  | nil => simp [searchLoop, errOkB, notFoundRecord]
  | cons t rest ih =>
    by_cases hc : acceptableB (search_with_selenium (fetch t)) = true
    · simp [searchLoop, hc, errOk_search_with_selenium]
    · simp [searchLoop, hc, ih]

theorem errOk_search_product (us df : Bool) (fetch : String → FetchOutcome)
    (fr : String → ScrapedProduct) (query : String) (ean : Option String) :
    errOkB (search_product us df fetch fr query ean) = true := by
  unfold search_product
  by_cases h1 : (search_terms_of query).isEmpty
  · simp [h1, errOkB, noTermRecord]
  · by_cases h2 : (us && !df) = true
    · simp [h1, h2, errOk_searchLoop fetch]
    · simp [h1, h2, errOkB, notFoundRecord]

/-! ## Loop behaviour lemmas -/

theorem searchLoop_all_unacceptable (fetch : String → FetchOutcome)
    (terms : List String)
    (h : ∀ t ∈ terms, acceptableB (search_with_selenium (fetch t)) = false) :
    searchLoop fetch terms = notFoundRecord := by
  induction terms with
  | nil => rfl
  | cons t rest ih =>
    have ht := h t (List.mem_cons_self t rest)
    simp [searchLoop, ht, ih fun u hu => h u (List.mem_cons_of_mem t hu)]

theorem searchLoopTrace_all_unacceptable (fetch : String → FetchOutcome)
    (terms : List String)
    (h : ∀ t ∈ terms, acceptableB (search_with_selenium (fetch t)) = false) :
    searchLoopTrace fetch terms = terms := by
  induction terms with
  | nil => rfl
  | cons t rest ih =>
    have ht := h t (List.mem_cons_self t rest)
    simp [searchLoopTrace, ht, ih fun u hu => h u (List.mem_cons_of_mem t hu)]

theorem searchLoop_first_acceptable (fetch : String → FetchOutcome)
    (pre : List String) (t : String) (post : List String)
    (hpre : ∀ u ∈ pre, acceptableB (search_with_selenium (fetch u)) = false)
    (ht : acceptableB (search_with_selenium (fetch t)) = true) :
    searchLoop fetch (pre ++ t :: post) = search_with_selenium (fetch t) ∧
    searchLoopTrace fetch (pre ++ t :: post) = pre ++ [t] := by
  induction pre with
  | nil => simp [searchLoop, searchLoopTrace, ht]
  | cons u rest ih =>
    have hu := hpre u (List.mem_cons_self u rest)
    have ihr := ih fun v hv => hpre v (List.mem_cons_of_mem u hv)
    simp [searchLoop, searchLoopTrace, hu, ihr.1, ihr.2]

/-- Records produced from a raised fetch exception are unacceptable (no
URL, unavailable), so the loop moves on to the next term. -/
theorem raised_outcomes_unacceptable (m : String) :
    acceptableB (search_with_selenium (FetchOutcome.raisedWebDriver m)) = false ∧
    acceptableB (search_with_selenium (FetchOutcome.raisedOther m)) = false := by
  simp [search_with_selenium, acceptableB, optTruthy]

/-! ## Positivity lemmas for the PriceParser paths -/

theorem parse_price_positive (t : String) (v : ℚ) (h : parse_price t = some v) :
    0 < v := by
  unfold parse_price at h
  split at h
  · exact absurd h (by simp)
  · split at h
    · exact absurd h (by simp)
    · split at h
      · rename_i hpos
        rw [← Option.some.inj h]
        exact hpos
      · exact absurd h (by simp)

theorem extract_price_card_positive (texts : List (Option String)) (v : ℚ)
    (h : extract_price_card texts = some v) : 0 < v := by
  induction texts with
  | nil => exact absurd h (by simp [extract_price_card])
  | cons x rest ih =>
    cases x with
    | none => exact ih (by simpa [extract_price_card] using h)
    | some t =>
      exact parse_price_positive _ v (by simpa [extract_price_card] using h)

theorem extract_price_dom_positive (texts : List (Option String)) (v : ℚ)
    (h : extract_price_dom texts = some v) : 0 < v := by
  induction texts with
  | nil => exact absurd h (by simp [extract_price_dom])
  | cons x rest ih =>
    cases x with
    | none => exact ih (by simpa [extract_price_dom] using h)
    | some t =>
      exact parse_price_positive _ v (by simpa [extract_price_dom] using h)

/-! ## Claim theorems -/

/-- Claim C1: `search_product` always returns a `ScrapedProduct` and never
propagates an exception of the fetch capability: a raised
`WebDriverException` or any other exception during an attempt is converted
into a record with the `error` field set, and even when every attempt
raises, the orchestrator still returns its terminal record (the no-term
error record or the not-found record) instead of raising. -/
theorem fetch_exceptions_become_error_records :
    (∀ m, search_with_selenium (FetchOutcome.raisedWebDriver m) =
      { error := some ("Erro WebDriver: " ++ pyTake m 100) }) ∧
    (∀ m, search_with_selenium (FetchOutcome.raisedOther m) =
      { error := some ("Erro Selenium: " ++ pyTake m 100) }) ∧
    (∀ (wd : String → Bool) (exc : String → String) (us df : Bool)
       (fr : String → ScrapedProduct) (query : String) (ean : Option String),
      search_product us df
        (fun t => if wd t then FetchOutcome.raisedWebDriver (exc t)
                  else FetchOutcome.raisedOther (exc t)) fr query ean =
        if search_terms_of query = [] then noTermRecord else notFoundRecord) := by
  refine ⟨fun m => rfl, fun m => rfl, ?_⟩
  intro wd exc us df fr query ean
  by_cases h1 : search_terms_of query = []
  · simp [search_product, h1]
  · have h1' : (search_terms_of query).isEmpty = false := by
      simp [List.isEmpty_iff, h1]
    have hall : ∀ t ∈ search_terms_of query,
        acceptableB (search_with_selenium
          (if wd t then FetchOutcome.raisedWebDriver (exc t)
           else FetchOutcome.raisedOther (exc t))) = false := by
      intro t _
      cases hw : wd t
      · simpa [hw] using (raised_outcomes_unacceptable (exc t)).2
      · simpa [hw] using (raised_outcomes_unacceptable (exc t)).1
    by_cases h2 : (us && !df) = true
    · have hloop := searchLoop_all_unacceptable _ _ hall
      simp [search_product, h1, h1', h2, hloop]
    · simp [search_product, h1', h2, h1]

/-- Claim C2: every record produced by any code path of the scraper —
the JSON field-mapper, the page-data extractor, the DOM extractors, the
per-term selenium attempt and the orchestrator itself — satisfies the
invariant that a set `error` field comes with `is_available = false`. -/
theorem error_implies_unavailable_everywhere :
    (∀ p, errOkB (parse_product_json p) = true) ∧
    (∀ payload, ((extract_from_page_data payload).all errOkB) = true) ∧
    (∀ dom, errOkB (extract_from_search_dom dom) = true) ∧
    (∀ payload dom url, errOkB (extract_product_page payload dom url) = true) ∧
    (∀ o, errOkB (search_with_selenium o) = true) ∧
    (∀ us df fetch fr query ean,
      errOkB (search_product us df fetch fr query ean) = true) := by
  refine ⟨errOk_parse_product_json, ?_, errOk_extract_from_search_dom,
    errOk_extract_product_page, errOk_search_with_selenium, errOk_search_product⟩
  intro payload
  cases h : extract_from_page_data payload with
  | none => rfl
  | some r => simpa [Option.all] using errOk_extract_from_page_data payload r h

/-- Claim C3 counterexample: `_parse_price("-5")` is not `None` — the
regex `(\d+\.?\d*)` skips the minus sign and extracts `"5"`, so the parse
yields the positive value 5. -/
theorem parse_price_minus_five_not_none :
    parse_price "-5" = some 5 ∧ parse_price "-5" ≠ none := by
  refine ⟨by decide, by decide⟩

/-- Claim C3 amended: `_parse_price` maps `"12,50€"`, `"1.234,56"`,
`"19.99"` to 12.50, 1234.56, 19.99, and `"free"`, `""` to `None`; `"-5"`
however yields 5 (the sign is not part of the extracted numeric
substring), not `None`. -/
theorem parse_price_spec_values :
    parse_price "12,50€" = some (25 / 2 : ℚ) ∧
    parse_price "1.234,56" = some (123456 / 100 : ℚ) ∧
    parse_price "19.99" = some (1999 / 100 : ℚ) ∧
    parse_price "free" = none ∧
    parse_price "" = none ∧
    parse_price "-5" = some 5 := by
  refine ⟨?_, ?_, ?_, by decide, by decide, by decide⟩
  · rw [show (25 / 2 : ℚ) = Rat.divInt 1250 100 from by
      rw [Rat.divInt_eq_div]; norm_num]
    decide
  · rw [show (123456 / 100 : ℚ) = Rat.divInt 123456 100 from by
      rw [Rat.divInt_eq_div]; norm_num]
    decide
  · rw [show (1999 / 100 : ℚ) = Rat.divInt 1999 100 from by
      rw [Rat.divInt_eq_div]; norm_num]
    decide

/-- Claim C4 counterexample: the embedded-JSON price path performs no
positivity check — a payload whose `price.value` is the string `"-5"`
produces a record whose `price` field is present and negative. -/
theorem json_price_passthrough_negative :
    (parse_product_json (JValue.obj
      [("price", JValue.obj [("value", JValue.str "-5")])])).price =
      some (-5 : ℚ) ∧ ¬ (0 < (-5 : ℚ)) := by
  refine ⟨by decide, by decide⟩

/-- Claim C4 amended: a price obtained through `_parse_price` is strictly
positive whenever present, and therefore so is the price of every record
built by the DOM extraction paths (search-results card and product-page
fallback), whose prices come from `_parse_price`; the embedded-JSON path
(`_get_price_from_json`) copies the JSON value unchecked. -/
theorem price_positive_on_parser_paths :
    (∀ t v, parse_price t = some v → 0 < v) ∧
    (∀ dom v, (extract_from_search_dom dom).price = some v → 0 < v) ∧
    (∀ dom url v, (productPageFallback dom url).price = some v → 0 < v) := by
  refine ⟨parse_price_positive, ?_, ?_⟩
  · intro dom v h
    unfold extract_from_search_dom at h
    split at h
    · exact absurd h (by simp)
    · split at h
      · exact absurd h (by simp)
      · exact extract_price_card_positive _ v h
  · intro dom url v h
    exact extract_price_dom_positive _ v h

/-- Witness for the amended C4 theorem at concrete inputs. -/
theorem price_positive_on_parser_paths_witness :
    parse_price "19.99" = some (Rat.divInt 1999 100) ∧ 0 < (Rat.divInt 1999 100 : ℚ) := by
  refine ⟨by decide, ?_⟩
  exact price_positive_on_parser_paths.1 "19.99" (Rat.divInt 1999 100) (by decide)

/-- Claim C5: with selenium active, `search_product` tries the candidate
terms in order, returns the per-term result of the first term whose record
is acceptable (`is_available` or a truthy URL) and attempts no later term;
when no term yields an acceptable record it returns the terminal
not-found record (`"Produto não encontrado na Worten"`). -/
theorem first_acceptable_term_wins :
    (∀ (fetch : String → FetchOutcome) (fr : String → ScrapedProduct)
       (query : String) (ean : Option String) (pre : List String) (t : String)
       (post : List String),
      search_terms_of query = pre ++ t :: post →
      (∀ u ∈ pre, acceptableB (search_with_selenium (fetch u)) = false) →
      acceptableB (search_with_selenium (fetch t)) = true →
      search_product true false fetch fr query ean = search_with_selenium (fetch t) ∧
      attempted_terms true false fetch query = pre ++ [t]) ∧
    (∀ (fetch : String → FetchOutcome) (fr : String → ScrapedProduct)
       (query : String) (ean : Option String),
      search_terms_of query ≠ [] →
      (∀ u ∈ search_terms_of query,
        acceptableB (search_with_selenium (fetch u)) = false) →
      search_product true false fetch fr query ean = notFoundRecord) := by
  constructor
  · intro fetch fr query ean pre t post hterms hpre ht
    have hne : search_terms_of query ≠ [] := by simp [hterms]
    have h1' : (search_terms_of query).isEmpty = false := by
      simp [List.isEmpty_iff, hne]
    have hfirst := searchLoop_first_acceptable fetch pre t post hpre ht
    constructor
    · simp only [search_product, h1', Bool.false_eq_true, if_false,
        Bool.and_self, Bool.not_false, if_true]
      rw [hterms]
      exact hfirst.1
    · simp only [attempted_terms, h1', Bool.false_eq_true, if_false,
        Bool.and_self, Bool.not_false, if_true]
      rw [hterms]
      exact hfirst.2
  · intro fetch fr query ean hne hall
    have h1' : (search_terms_of query).isEmpty = false := by
      simp [List.isEmpty_iff, hne]
    have hloop := searchLoop_all_unacceptable fetch _ hall
    simp [search_product, h1', hloop]

/-- Witness for C5: with two candidate terms for `"abc"` and a fetch whose
page redirects to a product URL, the first attempt's record is returned;
with a fetch whose driver is unavailable, the terminal not-found record is
returned. -/
theorem first_acceptable_term_wins_witness :
    (search_product true false
        (fun _ => FetchOutcome.page "/p/x" "" none {}) (fun _ => notFoundRecord)
        "abc" none =
      search_with_selenium (FetchOutcome.page "/p/x" "" none {}) ∧
     attempted_terms true false
        (fun _ => FetchOutcome.page "/p/x" "" none {}) "abc" = ["abc"]) ∧
    search_product true false (fun _ => FetchOutcome.noDriver)
        (fun _ => notFoundRecord) "abc" none = notFoundRecord := by
  constructor
  · exact first_acceptable_term_wins.1
      (fun _ => FetchOutcome.page "/p/x" "" none {}) (fun _ => notFoundRecord)
      "abc" none [] "abc" ["abc"] (by decide) (by simp) (by decide)
  · exact first_acceptable_term_wins.2 (fun _ => FetchOutcome.noDriver)
      (fun _ => notFoundRecord) "abc" none (by decide)
      (fun u _ => show acceptableB (search_with_selenium FetchOutcome.noDriver) = false
        from by decide)

/-- The JSON payload of end-to-end scenario A. -/
def widgetJson : JValue :=
  .obj [("name", .str "Widget"),
        ("slug", .str "/p/widget-1"),
        ("price", .obj [("current", .str "49.90")]),
        ("seller", .obj [("name", .str "ACME")]),
        ("available", .bool true)]

/-- Claim C6: the field-mapping step turns the Widget payload into the
record with name `"Widget"`, URL = base URL ++ `"/p/widget-1"`, price
49.90, seller `"ACME"`, available, and no error. -/
theorem widget_payload_maps_correctly :
    parse_product_json widgetJson =
      { name := some "Widget", url := some (BASE_URL ++ "/p/widget-1"),
        price := some (499 / 10 : ℚ), seller := some "ACME",
        is_available := true, error := none } := by
  rw [show (499 / 10 : ℚ) = Rat.divInt 4990 100 from by
    rw [Rat.divInt_eq_div]; norm_num]
  decide

/-- Claim C7 counterexample: a name of six tokens, each of which is a
stop word, yields an empty planned sequence (the full-name fallback only
fires for at most five tokens), although the name is neither empty nor
whitespace. -/
theorem planner_six_stopwords_empty :
    search_terms_of "de da do um em ou" = [] ∧
    "de da do um em ou" ≠ "" ∧
    pyStrip "de da do um em ou" ≠ "" := by
  refine ⟨by decide, by decide, by decide⟩

/-- Claim C7 amended: for a non-empty name whose tokens are all
insignificant (stop words or length ≤ 2), the planner returns the full
original name as sole candidate when the name has at most 5 tokens; with
more than 5 tokens the planned sequence is empty, as it also is for the
empty-string name. -/
theorem insignificant_name_full_fallback :
    (∀ q, q ≠ "" → (∀ w ∈ pySplitWs q, significantB w = false) →
      (pySplitWs q).length ≤ 5 → search_terms_of q = [q]) ∧
    (∀ q, (∀ w ∈ pySplitWs q, significantB w = false) →
      5 < (pySplitWs q).length → search_terms_of q = []) ∧
    search_terms_of "" = [] := by
  refine ⟨?_, ?_, rfl⟩
  · intro q hq hall hlen
    have hfil : (pySplitWs q).filter significantB = [] := by
      simp only [List.filter_eq_nil_iff]
      intro w hw
      simp [hall w hw]
    simp [search_terms_of, hq, hfil, hlen]
  · intro q hall hlen
    by_cases hq : q = ""
    · simp [search_terms_of, hq]
    · have hfil : (pySplitWs q).filter significantB = [] := by
        simp only [List.filter_eq_nil_iff]
        intro w hw
        simp [hall w hw]
      simp [search_terms_of, hq, hfil, Nat.not_le.mpr hlen]

/-- Witness for the amended C7 theorem at concrete inputs. -/
theorem insignificant_name_full_fallback_witness :
    search_terms_of "de da" = ["de da"] ∧
    search_terms_of "de da do um em ou" = [] := by
  constructor
  · exact insignificant_name_full_fallback.1 "de da" (by decide)
      (by decide) (by decide)
  · exact insignificant_name_full_fallback.2.1 "de da do um em ou"
      (by decide) (by decide)

/-- Claim C8 counterexample: the terminal not-found record the
orchestrator returns (and the not-found constant itself) has `seller =
None`, not the site name `"Worten"`, so the seller field is not a string
on every record. -/
theorem notfound_record_seller_is_none :
    (search_product true false (fun _ => FetchOutcome.noDriver)
        (fun _ => notFoundRecord) "abc" none).seller = none ∧
    notFoundRecord.seller = none := by
  refine ⟨by decide, rfl⟩

/-- Claim C8 amended: the extraction helpers default the seller to
`"Worten"` when no third-party seller is identified (absent `seller` key
in the JSON item; missing DOM seller elements), but the orchestrator's
own not-found and no-term error records leave the seller unset (`None`). -/
theorem seller_defaults_to_worten_in_extractors :
    (∀ fields, objGet fields "seller" = none →
      get_seller_from_json (JValue.obj fields) = some "Worten") ∧
    extract_seller_dom none = "Worten" ∧
    extract_seller_card none = "Worten" ∧
    notFoundRecord.seller = none ∧
    noTermRecord.seller = none := by
  refine ⟨?_, rfl, rfl, rfl, rfl⟩
  intro fields h
  simp [get_seller_from_json, jget, h]

/-- Witness for the amended C8 theorem at a concrete input. -/
theorem seller_defaults_to_worten_witness :
    get_seller_from_json (JValue.obj []) = some "Worten" :=
  seller_defaults_to_worten_in_extractors.1 [] rfl

/-- Claim C9: when the scraper was built with `use_selenium=False` or its
driver has been marked failed, `search_product` returns the terminal
not-found record for every query with at least one candidate term, fetching
nothing (the attempted-term trace is empty); and for every input the
result never depends on the `_search_with_requests` capability, which
`search_product` never invokes. -/
theorem selenium_disabled_returns_notfound_without_fetch :
    (∀ us df (fetch : String → FetchOutcome) (fr : String → ScrapedProduct)
       query ean, (us = false ∨ df = true) → search_terms_of query ≠ [] →
      search_product us df fetch fr query ean = notFoundRecord ∧
      attempted_terms us df fetch query = []) ∧
    (∀ us df (fetch : String → FetchOutcome)
       (fr fr2 : String → ScrapedProduct) query ean,
      search_product us df fetch fr query ean =
        search_product us df fetch fr2 query ean) := by
  constructor
  · intro us df fetch fr query ean hoff hne
    have h1' : (search_terms_of query).isEmpty = false := by
      simp [List.isEmpty_iff, hne]
    have h2 : (us && !df) = false := by
      rcases hoff with h | h <;> simp [h]
    constructor
    · simp [search_product, h1', h2]
    · simp [attempted_terms, h1', h2]
  · intro us df fetch fr fr2 query ean
    rfl

/-- Witness for C9 at a concrete disabled configuration. -/
theorem selenium_disabled_witness :
    search_product false false (fun _ => FetchOutcome.noDriver)
        (fun _ => noTermRecord) "abc" none = notFoundRecord ∧
    attempted_terms false false (fun _ => FetchOutcome.noDriver) "abc" = [] :=
  selenium_disabled_returns_notfound_without_fetch.1 false false
    (fun _ => FetchOutcome.noDriver) (fun _ => noTermRecord) "abc" none
    (Or.inl rfl) (by decide)

/-- Claim C10: the result of `search_product` is independent of the `ean`
argument — the body never reads it, so for the same fetch behaviour the
records for any two barcodes coincide. -/
theorem search_product_independent_of_ean :
    ∀ us df (fetch : String → FetchOutcome) (fr : String → ScrapedProduct)
      query ean1 ean2,
      search_product us df fetch fr query ean1 =
        search_product us df fetch fr query ean2 :=
  fun _ _ _ _ _ _ _ => rfl

end Worten

-- sanity examples (concrete behaviour of the embedded parser)
example : Worten.parse_price "12,50€" = some (Rat.divInt 1250 100) := by decide
example : Worten.parse_price "1.234,56" = some (Rat.divInt 123456 100) := by decide
example : Worten.parse_price "19.99" = some (Rat.divInt 1999 100) := by decide
example : Worten.parse_price "free" = none := by decide
example : Worten.parse_price "" = none := by decide
example : Worten.parse_price "-5" = some 5 := by decide

example : Worten.search_terms_of "abc" = ["abc", "abc"] := by decide
example : Worten.search_terms_of "de da" = ["de da"] := by decide
example : Worten.search_terms_of "de da do um em ou" = [] := by decide
example : Worten.search_terms_of "" = [] := by decide
example : Worten.search_terms_of " " = [" "] := by decide

example :
    Worten.parse_product_json (Worten.JValue.obj
      [("name", Worten.JValue.str "Widget"),
       ("slug", Worten.JValue.str "/p/widget-1"),
       ("price", Worten.JValue.obj [("current", Worten.JValue.str "49.90")]),
       ("seller", Worten.JValue.obj [("name", Worten.JValue.str "ACME")]),
       ("available", Worten.JValue.bool true)]) =
    { name := some "Widget", url := some "https://www.worten.pt/p/widget-1",
      price := some (Rat.divInt 4990 100), seller := some "ACME",
      is_available := true, error := none } := by decide

example :
    (Worten.parse_product_json (Worten.JValue.obj
      [("price", Worten.JValue.obj [("value", Worten.JValue.str "-5")])])).price =
    some (-5) := by decide

example :
    Worten.search_product true false (fun _ => Worten.FetchOutcome.noDriver)
      (fun _ => Worten.notFoundRecord) "abc" none = Worten.notFoundRecord := by decide
